import Mathlib

/-!
Shallow embedding of the synchronization and reconciliation engine of the
holded-sync-woocommerce repository, covering the SKU-based destination
router (config.js: isExcludedSku, isSecondaryProduct, hasSecondarySkus,
filterProductsByDestination, filterOrdersByDestination) and the Holded
destination client (src/destinations/holded.js: tax-rate resolution,
product upsert payload construction, invoice line construction, load of
reference caches, and the batch counting loops).

JavaScript numbers are modelled as rationals (ℚ); `x || y` on numbers is
modelled by `jsOrNum`, which falls through on `null`/`undefined` (`none`)
and on `0`, matching JavaScript falsiness. HTTP calls are modelled by
explicit outcome parameters (`Except String _`), so a thrown error is an
`Except.error` value and a caught one never escapes the modelled function.
-/

namespace HoldedSync

/-- JavaScript `v || fallback` for a possibly-null number: `null`/`undefined`
and `0` are falsy and select the fallback. -/
def jsOrNum (v : Option ℚ) (fallback : ℚ) : ℚ :=
  match v with
  | none => fallback
  | some x => if x = 0 then fallback else x

/-- JavaScript `toLowerCase`, modelled over the character list so that it
is kernel-computable (unlike `String.toLower`, which recurses on byte
positions). -/
def jsToLower (s : String) : String := ⟨s.data.map Char.toLower⟩

/-- JavaScript `trim`: strip leading and trailing whitespace, modelled over
the character list. -/
def jsTrim (s : String) : String :=
  ⟨((s.data.dropWhile Char.isWhitespace).reverse.dropWhile Char.isWhitespace).reverse⟩

/-- Routing-relevant part of `config` in config.js: `holdedSecondary.skus`,
`sync.excludedSkus` and `sync.defaultVatRate`. -/
structure SyncConfig where
  secondarySkus : List String
  excludedSkus : List String
  defaultVatRate : ℚ
  deriving Repr, DecidableEq

/-- Construction of the routing config from raw environment strings, as in
config.js: `HOLDED_SECONDARY_SKUS.split(',').map(sku => sku.trim())`,
`EXCLUDED_SKUS.split(',').map(sku => sku.trim().toLowerCase())`, and
`parseFloat(process.env.DEFAULT_VAT_RATE || '21')` (the parsed value when
the variable is set, else 21). -/
def mkSyncConfig (secondaryRaw excludedRaw : List String)
    (envDefaultVatRate : Option ℚ) : SyncConfig :=
  { secondarySkus := secondaryRaw.map (fun s => jsTrim s)
    excludedSkus := excludedRaw.map (fun s => jsToLower (jsTrim s))
    defaultVatRate := envDefaultVatRate.getD 21 }

/-- Canonical line item (the fields the engine reads). -/
structure LineItem where
  sku : String
  name : String
  description : String
  quantity : ℚ
  totalWithTax : ℚ
  taxRate : Option ℚ
  discount : ℚ
  deriving Repr, DecidableEq

/-- Canonical product (the fields the engine reads). -/
structure Product where
  sku : String
  name : String
  description : String
  price : ℚ
  pricesIncludeTax : Bool
  defaultVatRate : Option ℚ
  cost : Option ℚ
  tags : List String
  sitePfx : Option String
  deriving Repr, DecidableEq

/-- Canonical order (the fields the router and invoice builder read). -/
structure Order where
  id : String
  orderNumber : String
  date : String
  items : List LineItem
  paid : Option Bool
  sitePfx : Option String
  deriving Repr, DecidableEq

/-- config.js `isExcludedSku`: membership of the lowercased sku in
`config.sync.excludedSkus`. -/
def isExcludedSku (cfg : SyncConfig) (sku : String) : Bool :=
  cfg.excludedSkus.contains (jsToLower sku)

/-- config.js `isSecondaryProduct`: exact membership of the product sku in
`config.holdedSecondary.skus`. -/
def isSecondaryProduct (cfg : SyncConfig) (product : Product) : Bool :=
  cfg.secondarySkus.contains product.sku

/-- config.js `hasSecondarySkus`: some item sku is in
`config.holdedSecondary.skus` (exact membership). -/
def hasSecondarySkus (cfg : SyncConfig) (order : Order) : Bool :=
  order.items.any (fun item => cfg.secondarySkus.contains item.sku)

/-- Body of the `forEach` in config.js `filterProductsByDestination`:
drop excluded skus, push secondary products onto `secondary`, the rest
onto `primary`. The accumulator is the `(primary, secondary)` pair. -/
def routeProductStep (cfg : SyncConfig) (acc : List Product × List Product)
    (product : Product) : List Product × List Product :=
  if isExcludedSku cfg product.sku then acc
  else if isSecondaryProduct cfg product then (acc.1, acc.2 ++ [product])
  else (acc.1 ++ [product], acc.2)

/-- config.js `filterProductsByDestination`, returning
`(primary, secondary)`. -/
def filterProductsByDestination (cfg : SyncConfig) (products : List Product) :
    List Product × List Product :=
  products.foldl (routeProductStep cfg) ([], [])

/-- The `filteredOrder` built inside config.js `filterOrdersByDestination`:
the order with excluded-sku items removed. -/
def filterOrderItems (cfg : SyncConfig) (order : Order) : Order :=
  { order with items := order.items.filter (fun item => !isExcludedSku cfg item.sku) }

/-- Body of the `forEach` in config.js `filterOrdersByDestination`: filter
the items, drop the order if none survive, else route the whole filtered
order by `hasSecondarySkus`. -/
def routeOrderStep (cfg : SyncConfig) (acc : List Order × List Order)
    (order : Order) : List Order × List Order :=
  let filteredOrder := filterOrderItems cfg order
  if filteredOrder.items.isEmpty then acc
  else if hasSecondarySkus cfg filteredOrder then (acc.1, acc.2 ++ [filteredOrder])
  else (acc.1 ++ [filteredOrder], acc.2)

/-- config.js `filterOrdersByDestination`, returning `(primary, secondary)`. -/
def filterOrdersByDestination (cfg : SyncConfig) (orders : List Order) :
    List Order × List Order :=
  orders.foldl (routeOrderStep cfg) ([], [])

/-- Predicate for products routed to primary: not excluded and not secondary. -/
def routesPrimary (cfg : SyncConfig) (product : Product) : Bool :=
  !isExcludedSku cfg product.sku && !isSecondaryProduct cfg product

/-- Predicate for products routed to secondary: not excluded and secondary. -/
def routesSecondary (cfg : SyncConfig) (product : Product) : Bool :=
  !isExcludedSku cfg product.sku && isSecondaryProduct cfg product

theorem routeProducts_foldl (cfg : SyncConfig) (products : List Product)
    (a b : List Product) :
    products.foldl (routeProductStep cfg) (a, b) =
      (a ++ products.filter (routesPrimary cfg),
       b ++ products.filter (routesSecondary cfg)) := by
  induction products generalizing a b with
  | nil => simp
  | cons p rest ih =>
    simp only [List.foldl_cons, List.filter_cons]
    by_cases h1 : isExcludedSku cfg p.sku
    · simp [routeProductStep, routesPrimary, routesSecondary, h1, ih]
    · by_cases h2 : isSecondaryProduct cfg p
      · simp [routeProductStep, routesPrimary, routesSecondary, h1, h2, ih]
      · simp [routeProductStep, routesPrimary, routesSecondary, h1, h2, ih]

/-- Characterization of the product router as two order-preserving filters. -/
theorem filterProductsByDestination_eq (cfg : SyncConfig) (products : List Product) :
    filterProductsByDestination cfg products =
      (products.filter (routesPrimary cfg), products.filter (routesSecondary cfg)) := by
  simpa using routeProducts_foldl cfg products [] []

/-- Predicate for surviving orders routed to primary. -/
def orderRoutesPrimary (cfg : SyncConfig) (order : Order) : Bool :=
  !order.items.isEmpty && !hasSecondarySkus cfg order

/-- Predicate for surviving orders routed to secondary. -/
def orderRoutesSecondary (cfg : SyncConfig) (order : Order) : Bool :=
  !order.items.isEmpty && hasSecondarySkus cfg order

theorem routeOrders_foldl (cfg : SyncConfig) (orders : List Order)
    (a b : List Order) :
    orders.foldl (routeOrderStep cfg) (a, b) =
      (a ++ (orders.map (filterOrderItems cfg)).filter (orderRoutesPrimary cfg),
       b ++ (orders.map (filterOrderItems cfg)).filter (orderRoutesSecondary cfg)) := by
  induction orders generalizing a b with
  | nil => simp
  | cons o rest ih =>
    simp only [List.foldl_cons, List.map_cons, List.filter_cons]
    by_cases h1 : (filterOrderItems cfg o).items.isEmpty
    · simp [routeOrderStep, orderRoutesPrimary, orderRoutesSecondary, h1, ih]
    · by_cases h2 : hasSecondarySkus cfg (filterOrderItems cfg o)
      · simp [routeOrderStep, orderRoutesPrimary, orderRoutesSecondary, h1, h2, ih]
      · simp [routeOrderStep, orderRoutesPrimary, orderRoutesSecondary, h1, h2, ih]

/-- Characterization of the order router: each output is an order-preserving
filter over the item-filtered orders. -/
theorem filterOrdersByDestination_eq (cfg : SyncConfig) (orders : List Order) :
    filterOrdersByDestination cfg orders =
      ((orders.map (filterOrderItems cfg)).filter (orderRoutesPrimary cfg),
       (orders.map (filterOrderItems cfg)).filter (orderRoutesSecondary cfg)) := by
  simpa using routeOrders_foldl cfg orders [] []

/-! Holded destination client (src/destinations/holded.js). -/

/-- Entry of the `existingProducts` cache (`sku -> { id, ...p }`): the Holded
product id and the (possibly absent) `taxes` array of the remote product. -/
structure HoldedEntry where
  id : String
  taxes : Option (List String)
  deriving Repr, DecidableEq

/-- The `existingProducts` map, as an association list keyed by sku. -/
abbrev ProductCache := List (String × HoldedEntry)

/-- `Map.get(sku)` on the `existingProducts` cache. -/
def cacheGet (cache : ProductCache) (sku : String) : Option HoldedEntry :=
  (cache.find? (fun e => e.1 = sku)).map (fun e => e.2)

/-- `Map.set(k, v)`: overwrite the entry for `k` if present, else append. -/
def mapSet (cache : ProductCache) (k : String) (v : HoldedEntry) : ProductCache :=
  if cache.any (fun e => e.1 = k) then
    cache.map (fun e => if e.1 = k then (k, v) else e)
  else cache ++ [(k, v)]

/-- Value of a digit string, as JavaScript `parseInt` on the captured `\d+`. -/
def digitsVal (ds : List Char) : Nat :=
  ds.foldl (fun n c => 10 * n + (c.toNat - 48)) 0

/-- Scan for the first occurrence of the regex `s_iva_(\d+)` in a character
list: the literal `s_iva_` followed by at least one digit, capturing the
maximal digit run. -/
def scanIvaRate : List Char → Option Nat
  | [] => none
  | c :: rest =>
    if c = 's' then
      match rest with
      | '_' :: 'i' :: 'v' :: 'a' :: '_' :: tl =>
        let ds := tl.takeWhile (fun d => d.isDigit)
        if ds.isEmpty then scanIvaRate rest else some (digitsVal ds)
      | _ => scanIvaRate rest
    else scanIvaRate rest

/-- `taxCode.match(/s_iva_(\d+)/)` followed by `parseInt(match[1])`: the
embedded integer percentage of a Holded tax code, when one parses. -/
def parseIvaTaxCode (code : String) : Option Nat :=
  scanIvaRate code.data

/-- The percentage parsed from the first element of a cached product's
`taxes` array, mirroring the guard
`existingProduct?.taxes && Array.isArray(...) && length > 0` and the regex
match in holded.js (used both in `createOrUpdateProduct` and in the
invoice item builder of `createInvoice`). -/
def cachedTaxRate (entry : Option HoldedEntry) : Option Nat :=
  match entry with
  | some e =>
    match e.taxes with
    | some (taxCode :: _) => parseIvaTaxCode taxCode
    | _ => none
  | none => none

/-- `vatRateForCalc` in `createOrUpdateProduct`: the fallback chain
`siteVatRate || product.defaultVatRate || config.sync.defaultVatRate`,
overridden by the percentage embedded in the existing Holded product's tax
code when one parses. -/
def vatRateForCalc (cfg : SyncConfig) (cache : ProductCache) (product : Product)
    (siteVatRate : Option ℚ) : ℚ :=
  let base := jsOrNum siteVatRate (jsOrNum product.defaultVatRate cfg.defaultVatRate)
  match cachedTaxRate (cacheGet cache product.sku) with
  | some n => (n : ℚ)
  | none => base

/-- JavaScript `Math.round`: round half toward positive infinity
(`Rat.floor` is the kernel-computable floor on ℚ). -/
def jsRound (q : ℚ) : ℤ := (q + 1 / 2).floor

/-- `Math.round(x * 100) / 100`: round to 2 decimal places. -/
def round2 (q : ℚ) : ℚ := (jsRound (q * 100) : ℚ) / 100

/-- The `price` field computed in `createOrUpdateProduct`: net of tax when
`product.pricesIncludeTax && vatRateForCalc > 0`, else the source price. -/
def productNetPrice (cfg : SyncConfig) (cache : ProductCache) (product : Product)
    (siteVatRate : Option ℚ) : ℚ :=
  let rate := vatRateForCalc cfg cache product siteVatRate
  if product.pricesIncludeTax && rate > 0 then
    round2 (product.price / (1 + rate / 100))
  else product.price

/-- Product payload sent to Holded (`holdedProduct` in holded.js); `tax` is
optional because it is set only on create. -/
structure HoldedProductPayload where
  name : String
  sku : String
  desc : String
  price : ℚ
  purchasePrice : ℚ
  tags : List String
  kind : String
  tax : Option ℚ
  deriving Repr, DecidableEq

/-- The payload built by `createOrUpdateProduct`: the `tax` field is added
(`holdedProduct.tax = siteVatRate || product.defaultVatRate ||
config.sync.defaultVatRate`) only when the sku has no existing id in the
cache. -/
def buildHoldedProduct (cfg : SyncConfig) (cache : ProductCache) (product : Product)
    (siteVatRate : Option ℚ) : HoldedProductPayload :=
  { name := product.name
    sku := product.sku
    desc := product.description
    price := productNetPrice cfg cache product siteVatRate
    purchasePrice := product.cost.getD 0
    tags := product.tags
    kind := "simple"
    tax :=
      if (cacheGet cache product.sku).isSome then none
      else some (jsOrNum siteVatRate (jsOrNum product.defaultVatRate cfg.defaultVatRate)) }

/-- Outcome tag of one `createOrUpdateProduct` call. -/
inductive UpsertAction
  | created
  | updated
  | error
  deriving Repr, DecidableEq

/-- Effect part of `createOrUpdateProduct`: update when the sku is cached,
else create and insert the returned id into the cache; an HTTP failure
(modelled by `apiOk = false`) is caught and becomes the `error` action.
Returns the action together with the cache after the call. -/
def createOrUpdateProduct (cache : ProductCache) (product : Product)
    (apiOk : Bool) (newId : String) : UpsertAction × ProductCache :=
  match cacheGet cache product.sku with
  | some _ => if apiOk then (.updated, cache) else (.error, cache)
  | none =>
    if apiOk then (.created, mapSet cache product.sku ⟨newId, none⟩)
    else (.error, cache)

/-- Result counters of `syncProducts`. -/
structure ProductSyncCounts where
  created : Nat
  updated : Nat
  errors : Nat
  deriving Repr, DecidableEq

/-- The increment `results[result.action === 'error' ? 'errors' : result.action]++`. -/
def countUpsert (counts : ProductSyncCounts) (action : UpsertAction) : ProductSyncCounts :=
  match action with
  | .created => { counts with created := counts.created + 1 }
  | .updated => { counts with updated := counts.updated + 1 }
  | .error => { counts with errors := counts.errors + 1 }

/-- The `for (const product of products)` loop of `syncProducts`: each item
is upserted against the evolving cache and bumps exactly one counter. The
outcome of the HTTP call for the i-th item and the id Holded would return
are supplied by the oracles `apiOk` and `newId`. -/
def syncProductsLoop (apiOk : Nat → Bool) (newId : Nat → String) :
    List Product → Nat → ProductCache → ProductSyncCounts →
    ProductSyncCounts × ProductCache
  | [], _, cache, counts => (counts, cache)
  | product :: rest, i, cache, counts =>
    let r := createOrUpdateProduct cache product (apiOk i) (newId i)
    syncProductsLoop apiOk newId rest (i + 1) r.2 (countUpsert counts r.1)

/-- `syncProducts`: run the loop from zero counters over the cache produced
by `loadExistingProducts`. -/
def syncProducts (apiOk : Nat → Bool) (newId : Nat → String)
    (products : List Product) (cache : ProductCache) : ProductSyncCounts :=
  (syncProductsLoop apiOk newId products 0 cache ⟨0, 0, 0⟩).1

/-! Invoice creation (`createInvoice` and `payDocument` in holded.js). -/

/-- `effectiveTaxRate` for one invoice line: the percentage parsed from the
cached Holded product's tax code when one parses, else the chain
`item.taxRate || siteVatRate || config.sync.defaultVatRate`. -/
def resolveEffectiveRate (cfg : SyncConfig) (cache : ProductCache) (item : LineItem)
    (siteVatRate : Option ℚ) : ℚ :=
  match cachedTaxRate (cacheGet cache item.sku) with
  | some n => (n : ℚ)
  | none => jsOrNum item.taxRate (jsOrNum siteVatRate cfg.defaultVatRate)

/-- `calculatedSubtotal` for one invoice line: the tax-inclusive unit price
`item.totalWithTax / item.quantity`, divided by `1 + rate/100` when the
effective rate is positive, else passed through. -/
def invoiceItemSubtotal (rate : ℚ) (item : LineItem) : ℚ :=
  let unitPriceWithTax := item.totalWithTax / item.quantity
  if rate > 0 then unitPriceWithTax / (1 + rate / 100) else unitPriceWithTax

/-- Invoice line payload sent to Holded. -/
structure InvoiceItemPayload where
  name : String
  desc : String
  sku : String
  units : ℚ
  subtotal : ℚ
  discount : ℚ
  tax : ℚ
  deriving Repr, DecidableEq

/-- One element of `invoiceData.items` built inside `createInvoice`
(`units: item.quantity || 1`, `discount: item.discount || 0`). -/
def buildInvoiceItem (cfg : SyncConfig) (cache : ProductCache)
    (siteVatRate : Option ℚ) (item : LineItem) : InvoiceItemPayload :=
  let effectiveTaxRate := resolveEffectiveRate cfg cache item siteVatRate
  { name := item.name
    desc := item.description
    sku := item.sku
    units := if item.quantity = 0 then 1 else item.quantity
    subtotal := invoiceItemSubtotal effectiveTaxRate item
    discount := item.discount
    tax := effectiveTaxRate }

/-- Outcome of the two HTTP calls a `createInvoice` run may issue: the
document post (an `Except.error` models a thrown request, `Except.ok`
carries `response.data?.id`) and the payment post. -/
structure InvoiceApiOutcome where
  postOutcome : Except String (Option String)
  payOutcome : Except String Unit
  deriving Repr

/-- Observable result of one `createInvoice` run: the returned `success`
flag, the invoice id, and whether `payDocument` was called. -/
structure InvoiceResult where
  success : Bool
  invoiceId : Option String
  payCalled : Bool
  deriving Repr, DecidableEq

/-- `payDocument`: the whole body sits in try/catch, so the call always
returns; the returned flag says whether the document was marked paid. -/
def payDocument (payOutcome : Except String Unit) : Bool :=
  match payOutcome with
  | Except.ok _ => true
  | Except.error _ => false

/-- Control flow of `createInvoice` after the payload is built: a thrown
post is caught and yields `success = false`; on a post that returns, if an
id came back and `order.paid !== false`, `payDocument` is called (its
outcome cannot throw) and the result is `success = true` regardless. -/
def createInvoiceRun (order : Order) (api : InvoiceApiOutcome) : InvoiceResult :=
  match api.postOutcome with
  | Except.error _ => { success := false, invoiceId := none, payCalled := false }
  | Except.ok invoiceId =>
    if invoiceId.isSome ∧ order.paid ≠ some false then
      let _ := payDocument api.payOutcome
      { success := true, invoiceId := invoiceId, payCalled := true }
    else { success := true, invoiceId := invoiceId, payCalled := false }

/-- Result counters of `syncOrders`. -/
structure OrderSyncCounts where
  created : Nat
  errors : Nat
  deriving Repr, DecidableEq

/-- The increment `results[result.success ? 'created' : 'errors']++`. -/
def countInvoice (counts : OrderSyncCounts) (result : InvoiceResult) : OrderSyncCounts :=
  if result.success then { counts with created := counts.created + 1 }
  else { counts with errors := counts.errors + 1 }

/-- The `for (const order of orders)` loop of `syncOrders`: each order gets
one `createInvoice` run (API outcomes supplied per index) and bumps exactly
one counter. -/
def syncOrdersLoop (api : Nat → InvoiceApiOutcome) :
    List Order → Nat → OrderSyncCounts → OrderSyncCounts
  | [], _, counts => counts
  | order :: rest, i, counts =>
    syncOrdersLoop api rest (i + 1) (countInvoice counts (createInvoiceRun order (api i)))

/-- `syncOrders`: run the loop from zero counters. -/
def syncOrders (api : Nat → InvoiceApiOutcome) (orders : List Order) : OrderSyncCounts :=
  syncOrdersLoop api orders 0 ⟨0, 0⟩

/-! Reference-cache initialization (holded.js `loadExistingProducts`,
`loadSalesChannels`, `loadWarehouses`, `loadPaymentMethods`). -/

/-- A product row returned by `GET /products` (`sku` may be missing). -/
structure RemoteProduct where
  sku : Option String
  id : String
  taxes : Option (List String)
  deriving Repr, DecidableEq

/-- Body of the `products.forEach` in `loadExistingProducts`: insert under
the sku key only when `p.sku` is truthy (absent and empty skus are skipped). -/
def insertRemote (cache : ProductCache) (p : RemoteProduct) : ProductCache :=
  match p.sku with
  | some s => if s = "" then cache else mapSet cache s ⟨p.id, p.taxes⟩
  | none => cache

/-- `loadExistingProducts`: paginated reads into `this.existingProducts`;
the loop continues while a page holds exactly 50 items; the surrounding
try/catch swallows a thrown request, leaving the map as mutated so far.
`pages` supplies the successive responses; the accumulator is the map
(initially empty, as set in the constructor). -/
def loadExistingProducts : List (Except String (List RemoteProduct)) →
    ProductCache → ProductCache
  | [], cache => cache
  | (Except.error _) :: _, cache => cache
  | (Except.ok ps) :: rest, cache =>
    let cache2 := ps.foldl insertRemote cache
    if ps.length = 50 then loadExistingProducts rest cache2 else cache2

/-- A name/id row of the sales-channel, warehouse or payment-method lists. -/
structure NamedRow where
  name : String
  id : String
  deriving Repr, DecidableEq

/-- `loadSalesChannels`: one request; on a thrown request the catch leaves
the (initially empty) map empty. -/
def loadSalesChannels (resp : Except String (List NamedRow)) : List (String × String) :=
  match resp with
  | Except.ok rows => rows.foldl (fun m ch => m ++ [(ch.name, ch.id)]) []
  | Except.error _ => []

/-- `loadWarehouses`: same single-request shape as `loadSalesChannels`. -/
def loadWarehouses (resp : Except String (List NamedRow)) : List (String × String) :=
  match resp with
  | Except.ok rows => rows.foldl (fun m wh => m ++ [(wh.name, wh.id)]) []
  | Except.error _ => []

/-- `loadPaymentMethods`: single request, keys lowercased. -/
def loadPaymentMethods (resp : Except String (List NamedRow)) : List (String × String) :=
  match resp with
  | Except.ok rows => rows.foldl (fun m pm => m ++ [(jsToLower pm.name, pm.id)]) []
  | Except.error _ => []

/-! Sample-value builders used by concrete witnesses and counterexamples. -/

/-- Product sample with the routing- and tax-relevant fields. -/
def mkProduct (sku : String) (price : ℚ) (inclTax : Bool) (dvr : Option ℚ) : Product :=
  { sku := sku, name := "P", description := "", price := price,
    pricesIncludeTax := inclTax, defaultVatRate := dvr, cost := none,
    tags := [], sitePfx := none }

/-- Line-item sample with the routing- and tax-relevant fields. -/
def mkItem (sku : String) (q total : ℚ) (tr : Option ℚ) : LineItem :=
  { sku := sku, name := "I", description := "", quantity := q,
    totalWithTax := total, taxRate := tr, discount := 0 }

/-- Order sample. -/
def mkOrder (id : String) (items : List LineItem) (paid : Option Bool) : Order :=
  { id := id, orderNumber := id, date := "2026-01-01T00:00:00",
    items := items, paid := paid, sitePfx := none }

/-! Claim theorems. -/

/-- C1: the product router is a partition of the non-excluded input:
both outputs are order-preserving filters of the input; a product whose
sku matches the excluded set case-insensitively is in neither output; a
non-excluded input product is in `secondary` iff its sku is in the
secondary set and in `primary` otherwise; the outputs are disjoint. -/
theorem claim_C1_product_router_partition
    (secondaryRaw excludedRaw : List String) (envRate : Option ℚ)
    (products : List Product) :
    (filterProductsByDestination (mkSyncConfig secondaryRaw excludedRaw envRate) products).1 =
        products.filter (routesPrimary (mkSyncConfig secondaryRaw excludedRaw envRate)) ∧
    (filterProductsByDestination (mkSyncConfig secondaryRaw excludedRaw envRate) products).2 =
        products.filter (routesSecondary (mkSyncConfig secondaryRaw excludedRaw envRate)) ∧
    (∀ p : Product, (∃ e ∈ excludedRaw, jsToLower p.sku = jsToLower (jsTrim e)) →
        p ∉ (filterProductsByDestination (mkSyncConfig secondaryRaw excludedRaw envRate) products).1 ∧
        p ∉ (filterProductsByDestination (mkSyncConfig secondaryRaw excludedRaw envRate) products).2) ∧
    (∀ p ∈ products,
        isExcludedSku (mkSyncConfig secondaryRaw excludedRaw envRate) p.sku = false →
        ((p ∈ (filterProductsByDestination (mkSyncConfig secondaryRaw excludedRaw envRate) products).2 ↔
            isSecondaryProduct (mkSyncConfig secondaryRaw excludedRaw envRate) p = true) ∧
         (p ∈ (filterProductsByDestination (mkSyncConfig secondaryRaw excludedRaw envRate) products).1 ↔
            isSecondaryProduct (mkSyncConfig secondaryRaw excludedRaw envRate) p = false))) ∧
    (∀ p : Product,
        ¬(p ∈ (filterProductsByDestination (mkSyncConfig secondaryRaw excludedRaw envRate) products).1 ∧
          p ∈ (filterProductsByDestination (mkSyncConfig secondaryRaw excludedRaw envRate) products).2)) := by
  set cfg := mkSyncConfig secondaryRaw excludedRaw envRate with hcfg
  have heq := filterProductsByDestination_eq cfg products
  have hexcl : ∀ p : Product, (∃ e ∈ excludedRaw, jsToLower p.sku = jsToLower (jsTrim e)) →
      isExcludedSku cfg p.sku = true := by
    intro p ⟨e, he, hlow⟩
    simp only [isExcludedSku, hcfg, mkSyncConfig, List.elem_iff]
    exact hlow ▸ List.mem_map_of_mem (fun s => jsToLower (jsTrim s)) he
  refine ⟨by rw [heq], by rw [heq], ?_, ?_, ?_⟩
  · intro p hp
    have h := hexcl p hp
    rw [heq]
    constructor
    · intro hmem
      have := (List.mem_filter.mp hmem).2
      simp [routesPrimary, h] at this
    · intro hmem
      have := (List.mem_filter.mp hmem).2
      simp [routesSecondary, h] at this
  · intro p hp hne
    rw [heq]
    constructor
    · constructor
      · intro hmem
        have := (List.mem_filter.mp hmem).2
        simpa [routesSecondary, hne] using this
      · intro hsec
        exact List.mem_filter.mpr ⟨hp, by simp [routesSecondary, hne, hsec]⟩
    · constructor
      · intro hmem
        have := (List.mem_filter.mp hmem).2
        simpa [routesPrimary, hne] using this
      · intro hsec
        exact List.mem_filter.mpr ⟨hp, by simp [routesPrimary, hne, hsec]⟩
  · intro p ⟨h1, h2⟩
    rw [heq] at h1 h2
    have hp1 := (List.mem_filter.mp h1).2
    have hp2 := (List.mem_filter.mp h2).2
    simp [routesPrimary, routesSecondary] at hp1 hp2
    exact absurd hp2.2 (by simp [hp1.2])

/-- Witness for C1 at a concrete configuration and product list: the
case-insensitively excluded product lands in neither output. -/
theorem claim_C1_witness :
    mkProduct "exCl" 5 false none ∉
      (filterProductsByDestination (mkSyncConfig ["SEC1"] ["EXCL"] none)
        [mkProduct "A" 1 false none, mkProduct "exCl" 5 false none]).1 ∧
    mkProduct "exCl" 5 false none ∉
      (filterProductsByDestination (mkSyncConfig ["SEC1"] ["EXCL"] none)
        [mkProduct "A" 1 false none, mkProduct "exCl" 5 false none]).2 :=
  (claim_C1_product_router_partition ["SEC1"] ["EXCL"] none
      [mkProduct "A" 1 false none, mkProduct "exCl" 5 false none]).2.2.1
    (mkProduct "exCl" 5 false none) ⟨"EXCL", by decide, by decide⟩

/-- C2: the order router first removes excluded-sku line items from each
order; an order with no surviving items is in neither output; a surviving
order appears whole, in `secondary` iff some surviving item's sku is in
the secondary set and in `primary` otherwise; both outputs are
order-preserving filters of the item-filtered input and are disjoint. -/
theorem claim_C2_order_router (cfg : SyncConfig) (orders : List Order) :
    (filterOrdersByDestination cfg orders).1 =
        (orders.map (filterOrderItems cfg)).filter (orderRoutesPrimary cfg) ∧
    (filterOrdersByDestination cfg orders).2 =
        (orders.map (filterOrderItems cfg)).filter (orderRoutesSecondary cfg) ∧
    (∀ o : Order, o.items = [] →
        o ∉ (filterOrdersByDestination cfg orders).1 ∧
        o ∉ (filterOrdersByDestination cfg orders).2) ∧
    (∀ o ∈ orders, (filterOrderItems cfg o).items ≠ [] →
        ((filterOrderItems cfg o ∈ (filterOrdersByDestination cfg orders).2 ↔
            hasSecondarySkus cfg (filterOrderItems cfg o) = true) ∧
         (filterOrderItems cfg o ∈ (filterOrdersByDestination cfg orders).1 ↔
            hasSecondarySkus cfg (filterOrderItems cfg o) = false))) ∧
    (∀ o : Order, ¬(o ∈ (filterOrdersByDestination cfg orders).1 ∧
        o ∈ (filterOrdersByDestination cfg orders).2)) := by
  have heq := filterOrdersByDestination_eq cfg orders
  refine ⟨by rw [heq], by rw [heq], ?_, ?_, ?_⟩
  · intro o ho
    rw [heq]
    constructor
    · intro hmem
      have := (List.mem_filter.mp hmem).2
      simp [orderRoutesPrimary, ho] at this
    · intro hmem
      have := (List.mem_filter.mp hmem).2
      simp [orderRoutesSecondary, ho] at this
  · intro o ho hne
    have hmap : filterOrderItems cfg o ∈ orders.map (filterOrderItems cfg) :=
      List.mem_map_of_mem (filterOrderItems cfg) ho
    have hee : ((filterOrderItems cfg o).items.isEmpty = false) := by
      simpa [List.isEmpty_iff] using hne
    rw [heq]
    constructor
    · constructor
      · intro hmem
        have := (List.mem_filter.mp hmem).2
        simpa [orderRoutesSecondary, hee] using this
      · intro hsec
        exact List.mem_filter.mpr ⟨hmap, by simp [orderRoutesSecondary, hee, hsec]⟩
    · constructor
      · intro hmem
        have := (List.mem_filter.mp hmem).2
        simpa [orderRoutesPrimary, hee] using this
      · intro hsec
        exact List.mem_filter.mpr ⟨hmap, by simp [orderRoutesPrimary, hee, hsec]⟩
  · intro o ⟨h1, h2⟩
    rw [heq] at h1 h2
    have hp1 := (List.mem_filter.mp h1).2
    have hp2 := (List.mem_filter.mp h2).2
    simp [orderRoutesPrimary, orderRoutesSecondary] at hp1 hp2
    exact absurd hp2.2 (by simp [hp1.2])

/-- Witness for C2 at a concrete configuration: a mixed order (one
secondary-sku item, one other) routes whole to `secondary`, and an order
left with no items is in neither output. -/
theorem claim_C2_witness :
    filterOrderItems (mkSyncConfig ["SEC1"] ["EXCL"] none)
        (mkOrder "o1" [mkItem "SEC1" 1 10 none, mkItem "A" 1 5 none] none) ∈
      (filterOrdersByDestination (mkSyncConfig ["SEC1"] ["EXCL"] none)
        [mkOrder "o1" [mkItem "SEC1" 1 10 none, mkItem "A" 1 5 none] none,
         mkOrder "o2" [mkItem "excl" 1 7 none] none]).2 ∧
    filterOrderItems (mkSyncConfig ["SEC1"] ["EXCL"] none)
        (mkOrder "o2" [mkItem "excl" 1 7 none] none) ∉
      (filterOrdersByDestination (mkSyncConfig ["SEC1"] ["EXCL"] none)
        [mkOrder "o1" [mkItem "SEC1" 1 10 none, mkItem "A" 1 5 none] none,
         mkOrder "o2" [mkItem "excl" 1 7 none] none]).2 := by
  have h := claim_C2_order_router (mkSyncConfig ["SEC1"] ["EXCL"] none)
    [mkOrder "o1" [mkItem "SEC1" 1 10 none, mkItem "A" 1 5 none] none,
     mkOrder "o2" [mkItem "excl" 1 7 none] none]
  refine ⟨?_, ?_⟩
  · exact (h.2.2.2.1 (mkOrder "o1" [mkItem "SEC1" 1 10 none, mkItem "A" 1 5 none] none)
      (by decide) (by decide)).1.mpr (by decide)
  · exact (h.2.2.1 (filterOrderItems (mkSyncConfig ["SEC1"] ["EXCL"] none)
      (mkOrder "o2" [mkItem "excl" 1 7 none] none)) (by decide)).2

theorem countUpsert_total (counts : ProductSyncCounts) (a : UpsertAction) :
    (countUpsert counts a).created + (countUpsert counts a).updated +
      (countUpsert counts a).errors =
    counts.created + counts.updated + counts.errors + 1 := by
  cases a <;> simp [countUpsert] <;> omega

theorem syncProductsLoop_total (apiOk : Nat → Bool) (newId : Nat → String)
    (products : List Product) (i : Nat) (cache : ProductCache)
    (counts : ProductSyncCounts) :
    (syncProductsLoop apiOk newId products i cache counts).1.created +
      (syncProductsLoop apiOk newId products i cache counts).1.updated +
      (syncProductsLoop apiOk newId products i cache counts).1.errors =
    counts.created + counts.updated + counts.errors + products.length := by
  induction products generalizing i cache counts with
  | nil => simp [syncProductsLoop]
  | cons p rest ih =>
    simp only [syncProductsLoop, List.length_cons]
    rw [ih]
    rw [countUpsert_total]
    omega

theorem countInvoice_total (counts : OrderSyncCounts) (r : InvoiceResult) :
    (countInvoice counts r).created + (countInvoice counts r).errors =
      counts.created + counts.errors + 1 := by
  by_cases h : r.success <;> simp [countInvoice, h] <;> omega

theorem syncOrdersLoop_total (api : Nat → InvoiceApiOutcome) (orders : List Order)
    (i : Nat) (counts : OrderSyncCounts) :
    (syncOrdersLoop api orders i counts).created +
      (syncOrdersLoop api orders i counts).errors =
    counts.created + counts.errors + orders.length := by
  induction orders generalizing i counts with
  | nil => simp [syncOrdersLoop]
  | cons o rest ih =>
    simp only [syncOrdersLoop, List.length_cons]
    rw [ih, countInvoice_total]
    omega

/-- C9: `syncProducts` and `syncOrders` count every input item exactly once
(an item failure becomes an `errors` increment and the loop continues), so
the counters sum to the input length; both loops are total functions of
the per-item API outcomes, so no exception escapes a sync call. -/
theorem claim_C9_sync_counts_sum (apiOk : Nat → Bool) (newId : Nat → String)
    (products : List Product) (cache : ProductCache)
    (api : Nat → InvoiceApiOutcome) (orders : List Order) :
    (syncProducts apiOk newId products cache).created +
      (syncProducts apiOk newId products cache).updated +
      (syncProducts apiOk newId products cache).errors = products.length ∧
    (syncOrders api orders).created + (syncOrders api orders).errors =
      orders.length := by
  constructor
  · simpa [syncProducts] using
      syncProductsLoop_total apiOk newId products 0 cache ⟨0, 0, 0⟩
  · simpa [syncOrders] using syncOrdersLoop_total api orders 0 ⟨0, 0⟩

/-- C4: the outgoing product payload carries a `tax` field iff the sku is
absent from the existing-products cache, i.e. iff the operation is a
create (and on update it never does). -/
theorem claim_C4_tax_only_on_create (cfg : SyncConfig) (cache : ProductCache)
    (product : Product) (siteVatRate : Option ℚ) (newId : String) :
    (buildHoldedProduct cfg cache product siteVatRate).tax.isSome =
      (cacheGet cache product.sku).isNone ∧
    ((buildHoldedProduct cfg cache product siteVatRate).tax.isSome = true ↔
      (createOrUpdateProduct cache product true newId).1 = UpsertAction.created) := by
  unfold buildHoldedProduct createOrUpdateProduct
  cases h : cacheGet cache product.sku <;> simp [h]

/-- C7: when the document post succeeds with an id and the order's paid
flag is not exactly `false`, the payment-marking call is made and the run
is a success counted as `created` for every payment outcome, a failing
one included; when `paid === false` no payment call is made. -/
theorem claim_C7_payment_failure_not_error (order : Order) (id : String)
    (payOutcome : Except String Unit) (counts : OrderSyncCounts) :
    (order.paid ≠ some false →
        (createInvoiceRun order ⟨Except.ok (some id), payOutcome⟩).payCalled = true ∧
        (createInvoiceRun order ⟨Except.ok (some id), payOutcome⟩).success = true ∧
        (countInvoice counts
            (createInvoiceRun order ⟨Except.ok (some id), payOutcome⟩)).created =
          counts.created + 1 ∧
        (countInvoice counts
            (createInvoiceRun order ⟨Except.ok (some id), payOutcome⟩)).errors =
          counts.errors) ∧
    (order.paid = some false →
        (createInvoiceRun order ⟨Except.ok (some id), payOutcome⟩).payCalled = false) := by
  constructor
  · intro hpaid
    simp [createInvoiceRun, countInvoice, hpaid]
  · intro hpaid
    simp [createInvoiceRun, hpaid]

/-- Witness for C7: a paid-unknown order with a failing payment call is
still a success, counted as created. -/
theorem claim_C7_witness :
    (createInvoiceRun (mkOrder "o1" [mkItem "A" 1 10 none] none)
        ⟨Except.ok (some "doc1"), Except.error "pay failed"⟩).success = true ∧
    (countInvoice ⟨0, 0⟩ (createInvoiceRun (mkOrder "o1" [mkItem "A" 1 10 none] none)
        ⟨Except.ok (some "doc1"), Except.error "pay failed"⟩)).created = 1 := by
  have h := (claim_C7_payment_failure_not_error
    (mkOrder "o1" [mkItem "A" 1 10 none] none) "doc1"
    (Except.error "pay failed") ⟨0, 0⟩).1 (by decide)
  exact ⟨h.2.1, h.2.2.1⟩

/-- Bridging lemma: the computable `Rat.floor` agrees with the
`Int.floor` that `norm_num` evaluates. -/
theorem ratFloor_eq_intFloor (q : ℚ) : q.floor = ⌊q⌋ := by
  rw [Rat.floor_def', Rat.floor_def]

/-- Counterexample to C3 as stated: with a site-configured rate of 0 the
claimed precedence would use rate 0 for the net-price calculation and
leave the tax-inclusive price 121 unchanged, but the JavaScript chain
`siteVatRate || product.defaultVatRate || ...` treats 0 as absent,
resolves 21 from the product, and nets the price to 100. -/
theorem claim_C3_counterexample :
    vatRateForCalc (mkSyncConfig [] [] none) []
        (mkProduct "A-1" 121 true (some 21)) (some 0) = 21 ∧
    (buildHoldedProduct (mkSyncConfig [] [] none) []
        (mkProduct "A-1" 121 true (some 21)) (some 0)).price = 100 := by
  constructor
  · norm_num [vatRateForCalc, cachedTaxRate, cacheGet, mkSyncConfig, mkProduct,
      jsOrNum]
  · norm_num [buildHoldedProduct, productNetPrice, vatRateForCalc, cachedTaxRate,
      cacheGet, mkSyncConfig, mkProduct, jsOrNum, round2, jsRound,
      ratFloor_eq_intFloor]

/-- C3 (amended): the rate used for net-price calculation is the integer
percentage embedded in the ledger's existing tax code when one parses,
else the site rate, the product rate, then the configured default, where
a value of 0 — like an absent one — falls through to the next tier; the
price payload is `price / (1 + rate/100)` rounded to 2 decimals exactly
when `pricesIncludeTax` is set and the rate is positive, else the source
price; the spec's A-1 scenario creates with price 100 and tax 21. -/
theorem claim_C3_product_rate_and_net_price (cfg : SyncConfig)
    (cache : ProductCache) (product : Product) (siteVatRate : Option ℚ) :
    (∀ n : ℕ, cachedTaxRate (cacheGet cache product.sku) = some n →
        vatRateForCalc cfg cache product siteVatRate = n) ∧
    (cachedTaxRate (cacheGet cache product.sku) = none →
      ∀ r : ℚ, siteVatRate = some r → r ≠ 0 →
        vatRateForCalc cfg cache product siteVatRate = r) ∧
    (cachedTaxRate (cacheGet cache product.sku) = none →
      (siteVatRate = none ∨ siteVatRate = some 0) →
      ∀ d : ℚ, product.defaultVatRate = some d → d ≠ 0 →
        vatRateForCalc cfg cache product siteVatRate = d) ∧
    (cachedTaxRate (cacheGet cache product.sku) = none →
      (siteVatRate = none ∨ siteVatRate = some 0) →
      (product.defaultVatRate = none ∨ product.defaultVatRate = some 0) →
        vatRateForCalc cfg cache product siteVatRate = cfg.defaultVatRate) ∧
    (product.pricesIncludeTax = true →
        0 < vatRateForCalc cfg cache product siteVatRate →
        (buildHoldedProduct cfg cache product siteVatRate).price =
          round2 (product.price /
            (1 + vatRateForCalc cfg cache product siteVatRate / 100))) ∧
    (product.pricesIncludeTax = false →
        (buildHoldedProduct cfg cache product siteVatRate).price = product.price) ∧
    (¬ 0 < vatRateForCalc cfg cache product siteVatRate →
        (buildHoldedProduct cfg cache product siteVatRate).price = product.price) ∧
    ((buildHoldedProduct (mkSyncConfig [] [] none) []
        (mkProduct "A-1" 121 true (some 21)) none).price = 100 ∧
     (buildHoldedProduct (mkSyncConfig [] [] none) []
        (mkProduct "A-1" 121 true (some 21)) none).tax = some 21 ∧
     (createOrUpdateProduct [] (mkProduct "A-1" 121 true (some 21)) true "newid").1 =
        UpsertAction.created) := by
  refine ⟨?_, ?_, ?_, ?_, ?_, ?_, ?_,
    by norm_num [buildHoldedProduct, productNetPrice, vatRateForCalc,
      cachedTaxRate, cacheGet, mkSyncConfig, mkProduct, jsOrNum, round2,
      jsRound, ratFloor_eq_intFloor],
    by norm_num [buildHoldedProduct, mkSyncConfig, mkProduct, cacheGet, jsOrNum],
    by norm_num [createOrUpdateProduct, mkProduct, cacheGet]⟩
  · intro n hn
    simp [vatRateForCalc, hn]
  · intro hnone r hr hne
    simp [vatRateForCalc, hnone, hr, jsOrNum, hne]
  · intro hnone hs d hd hne
    rcases hs with hs | hs <;> simp [vatRateForCalc, hnone, hs, hd, jsOrNum, hne]
  · intro hnone hs hd
    rcases hs with hs | hs <;> rcases hd with hd | hd <;>
      simp [vatRateForCalc, hnone, hs, hd, jsOrNum]
  · intro hinc hpos
    simp [buildHoldedProduct, productNetPrice, hinc, hpos]
  · intro hinc
    simp [buildHoldedProduct, productNetPrice, hinc]
  · intro hpos
    simp [buildHoldedProduct, productNetPrice, hpos]

/-- Witness for C3 (amended) at concrete inputs: a parsed ledger tax code
overrides the chain, and a nonzero site rate is used when nothing parses. -/
theorem claim_C3_witness :
    vatRateForCalc (mkSyncConfig [] [] none)
        [("A-1", ⟨"id1", some ["s_iva_10"]⟩)]
        (mkProduct "A-1" 121 true (some 21)) (some 5) = 10 ∧
    vatRateForCalc (mkSyncConfig [] [] none) []
        (mkProduct "A-1" 121 true (some 21)) (some 5) = 5 := by
  constructor
  · exact (claim_C3_product_rate_and_net_price (mkSyncConfig [] [] none)
      [("A-1", ⟨"id1", some ["s_iva_10"]⟩)]
      (mkProduct "A-1" 121 true (some 21)) (some 5)).1 10 (by decide)
  · exact ((claim_C3_product_rate_and_net_price (mkSyncConfig [] [] none) []
      (mkProduct "A-1" 121 true (some 21)) (some 5)).2.1 (by decide)) 5 rfl
      (by norm_num)

/-- Witness for C4 at a concrete cache: with sku `A` cached the payload
has no tax field; with an empty cache it has one. -/
theorem claim_C4_witness :
    (buildHoldedProduct (mkSyncConfig [] [] none) [("A", ⟨"id1", none⟩)]
        (mkProduct "A" 10 false none) none).tax.isSome = false ∧
    (buildHoldedProduct (mkSyncConfig [] [] none) []
        (mkProduct "A" 10 false none) none).tax.isSome = true := by
  constructor
  · rw [(claim_C4_tax_only_on_create (mkSyncConfig [] [] none)
      [("A", ⟨"id1", none⟩)] (mkProduct "A" 10 false none) none "x").1]
    decide
  · rw [(claim_C4_tax_only_on_create (mkSyncConfig [] [] none) []
      (mkProduct "A" 10 false none) none "x").1]
    decide

/-- Counterexample to C5 as stated: a line whose own `taxRate` is 0 should
take priority over the per-site default, but the JavaScript chain
`item.taxRate || siteVatRate || ...` treats 0 as absent and resolves the
site rate 10 instead. -/
theorem claim_C5_counterexample :
    (mkItem "A" 1 10 (some 0)).taxRate = some 0 ∧
    resolveEffectiveRate (mkSyncConfig [] [] none) []
      (mkItem "A" 1 10 (some 0)) (some 10) = 10 := by
  constructor
  · rfl
  · norm_num [resolveEffectiveRate, cachedTaxRate, cacheGet, mkSyncConfig,
      mkItem, jsOrNum]

/-- C5 (amended): the effective line rate resolves by four-tier
precedence — parsed ledger tax code, then the line's `taxRate`, then the
site default, then the configured default (21 when the environment sets
none) — where a tier whose value is 0, like an absent one, falls through
to the next; an unparseable tax code contributes no override; and
resolution is a pure function of its inputs, so re-resolving the same
triple yields the same rate. -/
theorem claim_C5_line_rate_precedence (cfg : SyncConfig) (cache : ProductCache)
    (item : LineItem) (siteVatRate : Option ℚ) :
    (∀ n : ℕ, cachedTaxRate (cacheGet cache item.sku) = some n →
        resolveEffectiveRate cfg cache item siteVatRate = n) ∧
    (cachedTaxRate (cacheGet cache item.sku) = none →
      ∀ t : ℚ, item.taxRate = some t → t ≠ 0 →
        resolveEffectiveRate cfg cache item siteVatRate = t) ∧
    (cachedTaxRate (cacheGet cache item.sku) = none →
      (item.taxRate = none ∨ item.taxRate = some 0) →
      ∀ r : ℚ, siteVatRate = some r → r ≠ 0 →
        resolveEffectiveRate cfg cache item siteVatRate = r) ∧
    (cachedTaxRate (cacheGet cache item.sku) = none →
      (item.taxRate = none ∨ item.taxRate = some 0) →
      (siteVatRate = none ∨ siteVatRate = some 0) →
        resolveEffectiveRate cfg cache item siteVatRate = cfg.defaultVatRate) ∧
    (∀ sRaw eRaw : List String, (mkSyncConfig sRaw eRaw none).defaultVatRate = 21) ∧
    (∀ code pid : String, parseIvaTaxCode code = none →
        resolveEffectiveRate cfg ((item.sku, ⟨pid, some [code]⟩) :: cache) item
            siteVatRate =
          jsOrNum item.taxRate (jsOrNum siteVatRate cfg.defaultVatRate)) ∧
    resolveEffectiveRate cfg cache item siteVatRate =
      resolveEffectiveRate cfg cache item siteVatRate := by
  refine ⟨?_, ?_, ?_, ?_, fun _ _ => rfl, ?_, rfl⟩
  · intro n hn
    simp [resolveEffectiveRate, hn]
  · intro hnone t ht hne
    simp [resolveEffectiveRate, hnone, ht, jsOrNum, hne]
  · intro hnone ht r hr hne
    rcases ht with ht | ht <;>
      simp [resolveEffectiveRate, hnone, ht, hr, jsOrNum, hne]
  · intro hnone ht hs
    rcases ht with ht | ht <;> rcases hs with hs | hs <;>
      simp [resolveEffectiveRate, hnone, ht, hs, jsOrNum]
  · intro code pid hcode
    simp [resolveEffectiveRate, cachedTaxRate, cacheGet, hcode]

/-- Witness for C5 (amended) at concrete inputs: a parsed ledger code
`s_iva_4` beats the line rate 10, and an unparseable code `exempt` falls
through to the line rate. -/
theorem claim_C5_witness :
    resolveEffectiveRate (mkSyncConfig [] [] none)
      [("A", ⟨"id1", some ["s_iva_4"]⟩)] (mkItem "A" 1 10 (some 10)) none = 4 ∧
    resolveEffectiveRate (mkSyncConfig [] [] none)
      [("A", ⟨"id1", some ["exempt"]⟩)] (mkItem "A" 1 10 (some 10)) none = 10 := by
  constructor
  · exact (claim_C5_line_rate_precedence (mkSyncConfig [] [] none)
      [("A", ⟨"id1", some ["s_iva_4"]⟩)] (mkItem "A" 1 10 (some 10)) none).1
      4 (by decide)
  · have h := (claim_C5_line_rate_precedence (mkSyncConfig [] [] none) []
      (mkItem "A" 1 10 (some 10)) none).2.2.2.2.2.1 "exempt" "id1" (by decide)
    have hsku : (mkItem "A" 1 10 (some 10)).sku = "A" := rfl
    rw [hsku] at h
    rw [h]
    norm_num [mkItem, jsOrNum, mkSyncConfig]

/-- Counterexample to C6 as stated: the computed subtotal is per unit
(`totalWithTax / quantity`, then net of tax), so for quantity 2 the
claimed round-trip `S * (1 + r/100) ≈ X` misses by a factor of the
quantity: with `X = 200`, `q = 2`, `r = 0` the subtotal is 100 and
`100 * (1 + 0/100) = 100`, off from 200 far beyond the 2-decimal
tolerance. -/
theorem claim_C6_counterexample :
    invoiceItemSubtotal 0 (mkItem "A" 2 200 none) = 100 ∧
    ¬ |invoiceItemSubtotal 0 (mkItem "A" 2 200 none) * (1 + 0 / 100) - 200| ≤
        1 / 100 := by
  constructor
  · norm_num [invoiceItemSubtotal, mkItem]
  · norm_num [invoiceItemSubtotal, mkItem]

/-- C6 (amended): for a line with tax-inclusive total X, quantity q > 0 and
resolved rate r, the subtotal sent to the ledger is `(X/q) / (1 + r/100)`
when `r > 0` and `X/q` when `r = 0`, and the per-line round-trip holds
exactly: `S * q * (1 + r/100) = X` for every `r ≥ 0` (the claim's
round-trip omitted the quantity factor). -/
theorem claim_C6_subtotal_roundtrip (cfg : SyncConfig) (cache : ProductCache)
    (item : LineItem) (siteVatRate : Option ℚ) (r : ℚ)
    (_hr : r = resolveEffectiveRate cfg cache item siteVatRate)
    (hq : 0 < item.quantity) :
    (0 < r → invoiceItemSubtotal r item =
        (item.totalWithTax / item.quantity) / (1 + r / 100)) ∧
    (r = 0 → invoiceItemSubtotal r item = item.totalWithTax / item.quantity) ∧
    (0 ≤ r → invoiceItemSubtotal r item * item.quantity * (1 + r / 100) =
        item.totalWithTax) := by
  have hqne : item.quantity ≠ 0 := ne_of_gt hq
  refine ⟨?_, ?_, ?_⟩
  · intro hpos
    simp [invoiceItemSubtotal, hpos]
  · intro h0
    simp [invoiceItemSubtotal, h0]
  · intro hge
    rcases eq_or_lt_of_le hge with heq | hpos
    · simp only [invoiceItemSubtotal, ← heq]
      norm_num
      exact div_mul_cancel₀ item.totalWithTax hqne
    · have hne : (1 : ℚ) + r / 100 ≠ 0 := by positivity
      simp only [invoiceItemSubtotal, if_pos hpos]
      field_simp
      ring

/-- Witness for C6 (amended) at a concrete line: X = 242, q = 2, resolved
rate 21 (the configured default); the per-unit subtotal is 100 and the
per-line round-trip recovers 242. -/
theorem claim_C6_witness :
    invoiceItemSubtotal 21 (mkItem "A" 2 242 none) =
      (242 / 2 : ℚ) / (1 + 21 / 100) ∧
    invoiceItemSubtotal 21 (mkItem "A" 2 242 none) * 2 * (1 + 21 / 100) = 242 := by
  have h := claim_C6_subtotal_roundtrip (mkSyncConfig [] [] none) []
    (mkItem "A" 2 242 none) none 21 (by rfl) (by norm_num [mkItem])
  refine ⟨?_, ?_⟩
  · simpa [mkItem] using h.1 (by norm_num)
  · have := h.2.2 (by norm_num)
    simpa [mkItem] using this

set_option maxRecDepth 4000 in
/-- Counterexample to C8 as stated: a products load that reads one full
page of 50 items and then fails keeps the already-inserted entries — the
try/catch in `loadExistingProducts` logs the error but does not clear the
map — so the existing-products cache is not left empty. -/
theorem claim_C8_counterexample :
    loadExistingProducts
        [Except.ok (List.replicate 50 ⟨some "A", "id1", none⟩),
         Except.error "network error"] [] =
      [("A", ⟨"id1", none⟩)] ∧
    loadExistingProducts
        [Except.ok (List.replicate 50 ⟨some "A", "id1", none⟩),
         Except.error "network error"] [] ≠ [] := by
  constructor <;> decide

/-- C8 (amended): every cache-initialization error is caught (the loaders
are total functions of the response outcome, so the sync continues); the
single-request caches — sales channels, warehouses, payment methods — are
left empty on error, and so is the products cache when the first page
fails; but a products load that fails mid-pagination retains exactly the
entries inserted from the pages read before the failure. -/
theorem claim_C8_cache_init_errors (e : String)
    (rest : List (Except String (List RemoteProduct))) (cache : ProductCache)
    (ps : List RemoteProduct) :
    loadSalesChannels (Except.error e) = [] ∧
    loadWarehouses (Except.error e) = [] ∧
    loadPaymentMethods (Except.error e) = [] ∧
    loadExistingProducts (Except.error e :: rest) cache = cache ∧
    loadExistingProducts [Except.error e] [] = [] ∧
    (ps.length = 50 →
      loadExistingProducts (Except.ok ps :: Except.error e :: rest) [] =
        ps.foldl insertRemote []) := by
  refine ⟨rfl, rfl, rfl, rfl, rfl, ?_⟩
  intro h50
  simp [loadExistingProducts, h50]

/-- Witness for C8 (amended): a full page followed by an error retains
exactly that page's insertions. -/
theorem claim_C8_witness :
    loadExistingProducts
        [Except.ok (List.replicate 50 (⟨some "B", "id2", none⟩ : RemoteProduct)),
         Except.error "boom"] [] =
      (List.replicate 50 (⟨some "B", "id2", none⟩ : RemoteProduct)).foldl
        insertRemote [] :=
  (claim_C8_cache_init_errors "boom" [] []
    (List.replicate 50 ⟨some "B", "id2", none⟩)).2.2.2.2.2 (by decide)

/-- C10: secondary matching is exact while excluded matching is
case-insensitive: a non-excluded product whose sku differs (only in letter
case) from every configured secondary sku routes to primary, while a sku
differing only in case from a configured excluded sku is dropped from
both outputs. -/
theorem claim_C10_case_sensitivity (secondaryRaw excludedRaw : List String)
    (envRate : Option ℚ) (products : List Product) (p : Product) :
    ((∀ e ∈ (mkSyncConfig secondaryRaw excludedRaw envRate).secondarySkus,
          jsToLower p.sku = jsToLower e ∧ p.sku ≠ e) →
      isExcludedSku (mkSyncConfig secondaryRaw excludedRaw envRate) p.sku = false →
      p ∈ products →
      (p ∈ (filterProductsByDestination (mkSyncConfig secondaryRaw excludedRaw envRate)
              products).1 ∧
       p ∉ (filterProductsByDestination (mkSyncConfig secondaryRaw excludedRaw envRate)
              products).2)) ∧
    ((∃ e ∈ excludedRaw, p.sku ≠ jsTrim e ∧ jsToLower p.sku = jsToLower (jsTrim e)) →
      (p ∉ (filterProductsByDestination (mkSyncConfig secondaryRaw excludedRaw envRate)
              products).1 ∧
       p ∉ (filterProductsByDestination (mkSyncConfig secondaryRaw excludedRaw envRate)
              products).2)) := by
  set cfg := mkSyncConfig secondaryRaw excludedRaw envRate with hcfg
  have heq := filterProductsByDestination_eq cfg products
  constructor
  · intro hsec hnex hp
    have hnotsec : isSecondaryProduct cfg p = false := by
      rw [isSecondaryProduct]
      by_cases hmem : p.sku ∈ cfg.secondarySkus
      · exact absurd rfl (hsec p.sku hmem).2
      · exact Bool.eq_false_iff.mpr (fun hc => hmem (List.elem_iff.mp hc))
    rw [heq]
    constructor
    · exact List.mem_filter.mpr ⟨hp, by simp [routesPrimary, hnex, hnotsec]⟩
    · intro hmem
      have := (List.mem_filter.mp hmem).2
      simp [routesSecondary, hnex, hnotsec] at this
  · intro ⟨e, he, _, hlow⟩
    have hexcl : isExcludedSku cfg p.sku = true := by
      simp only [isExcludedSku, hcfg, mkSyncConfig, List.elem_iff]
      exact hlow ▸ List.mem_map_of_mem (fun s => jsToLower (jsTrim s)) he
    rw [heq]
    constructor
    · intro hmem
      have := (List.mem_filter.mp hmem).2
      simp [routesPrimary, hexcl] at this
    · intro hmem
      have := (List.mem_filter.mp hmem).2
      simp [routesSecondary, hexcl] at this

/-- Witness for C10 at concrete inputs: sku `abc` with secondary set
`{ABC}` routes to primary; sku `xYz` with excluded set `{xyz}` is dropped
from both. -/
theorem claim_C10_witness :
    mkProduct "abc" 1 false none ∈
      (filterProductsByDestination (mkSyncConfig ["ABC"] ["xyz"] none)
        [mkProduct "abc" 1 false none, mkProduct "xYz" 1 false none]).1 ∧
    mkProduct "xYz" 1 false none ∉
      (filterProductsByDestination (mkSyncConfig ["ABC"] ["xyz"] none)
        [mkProduct "abc" 1 false none, mkProduct "xYz" 1 false none]).2 := by
  constructor
  · exact ((claim_C10_case_sensitivity ["ABC"] ["xyz"] none
      [mkProduct "abc" 1 false none, mkProduct "xYz" 1 false none]
      (mkProduct "abc" 1 false none)).1 (by decide) (by decide) (by decide)).1
  · exact ((claim_C10_case_sensitivity ["ABC"] ["xyz"] none
      [mkProduct "abc" 1 false none, mkProduct "xYz" 1 false none]
      (mkProduct "xYz" 1 false none)).2 ⟨"xyz", by decide, by decide, by decide⟩).2

end HoldedSync
